import Mathlib

/-!
Shallow embedding of the recipient-identifier pipeline of the
`whatsapp-demo` repository: the normalizer, format validator and bulk
classifier from `numberValidation.ts`, the sliding-window rate limiter
from `rateLimiter.ts`, the Twilio dispatcher from `twilio.ts` (the
template-capable version used by the send route), and the control flow
of the `POST /api/sms/send` route.

Identifier strings are modelled as `List Char`; the JavaScript string
operations used by the code (regex character filtering, `startsWith`,
length, equality) translate directly.  Fallible database access is a
parameter `db : List Char → Except String Bool` (keyed by the
normalized number, returning whether a row exists, or an error
message), mirroring the single `SELECT ... WHERE normalized_number`
query in `checkNumberExists`.
-/

namespace NumberValidation

/-- The characters kept by `phoneNumber.replace(/[^\d+]/g, "")`:
decimal digits and the plus sign. -/
def keepDigitPlus (c : Char) : Bool := c.isDigit || c = '+'

/-- `normalizePhoneNumber` from `numberValidation.ts`: strip every
character but digits and `+`; if the result does not start with `+`,
replace a leading `00` by `+`, else prepend `+` when at least 10
characters remain. -/
def normalizePhoneNumber (phoneNumber : List Char) : List Char :=
  let normalized := phoneNumber.filter keepDigitPlus
  if normalized.take 1 = ['+'] then
    normalized
  else if normalized.take 2 = ['0', '0'] then
    '+' :: normalized.drop 2
  else if 10 ≤ normalized.length then
    '+' :: normalized
  else
    normalized

/-- The test of the regex `^\+\d{7,15}$` against a whole string: a
leading `+` followed by 7 to 15 digits and nothing else. -/
def phoneRegexTest (s : List Char) : Bool :=
  match s with
  | c :: rest =>
      c = '+' && rest.all Char.isDigit
        && decide (7 ≤ rest.length) && decide (rest.length ≤ 15)
  | [] => false

/-- `isValidPhoneNumber` from `numberValidation.ts`: normalize, then
test `^\+\d{7,15}$`. -/
def isValidPhoneNumber (phoneNumber : List Char) : Bool :=
  phoneRegexTest (normalizePhoneNumber phoneNumber)

/-- `ValidationResult` from `numberValidation.ts`.  The database row
payload of `existingRecord` is not inspected anywhere in the pipeline,
so presence is modelled as `Option Unit`. -/
structure ValidationResult where
  isValid : Bool
  isDuplicate : Bool
  normalizedNumber : List Char
  existingRecord : Option Unit
  error : Option String
deriving DecidableEq, Repr

/-- `checkNumberExists`: query the store by the normalized number; a
query failure is re-thrown as `"Database error while checking number"`.
`db` returns whether a `phone_numbers` row with that
`normalized_number` exists. -/
def checkNumberExists (db : List Char → Except String Bool)
    (phoneNumber : List Char) : Except String Bool :=
  match db (normalizePhoneNumber phoneNumber) with
  | .ok b => .ok b
  | .error _ => .error "Database error while checking number"

/-- `validatePhoneNumber`: format check, then existence lookup; the
surrounding `try`/`catch` turns a lookup failure into an invalid
result carrying the error message. -/
def validatePhoneNumber (db : List Char → Except String Bool)
    (phoneNumber : List Char) : ValidationResult :=
  if !isValidPhoneNumber phoneNumber then
    { isValid := false
      isDuplicate := false
      normalizedNumber := normalizePhoneNumber phoneNumber
      existingRecord := none
      error := some "Invalid phone number format" }
  else
    match checkNumberExists db phoneNumber with
    | .ok exists_ =>
        { isValid := true
          isDuplicate := exists_
          normalizedNumber := normalizePhoneNumber phoneNumber
          existingRecord := if exists_ then some () else none
          error := none }
    | .error msg =>
        { isValid := false
          isDuplicate := false
          normalizedNumber := normalizePhoneNumber phoneNumber
          existingRecord := none
          error := some msg }

/-- `[...new Set(phoneNumbers)]`: deduplication keeping the first
occurrence of each raw value, in insertion order. -/
def uniqueFirstSeen (l : List (List Char)) : List (List Char) :=
  l.foldl (fun acc x => if x ∈ acc then acc else acc ++ [x]) []

/-- The `numberCounts` pass: every raw value occurring more than once
in the input contributes all of its occurrences, iterating keys in
first-seen order (JavaScript `Map` insertion order). -/
def intraInputDuplicatesOf (l : List (List Char)) : List (List Char) :=
  (uniqueFirstSeen l).flatMap
    (fun x => if 1 < l.count x then List.replicate (l.count x) x else [])

/-- The `uniqueResults` map: one `validatePhoneNumber` call per unique
raw input value. -/
def uniqueResultsOf (db : List Char → Except String Bool)
    (l : List (List Char)) : List (List Char × ValidationResult) :=
  (uniqueFirstSeen l).map (fun x => (x, validatePhoneNumber db x))

/-- The value `uniqueResults.get(phoneNumber)!` in the second pass.
The non-null assertion can only be exercised with a key that is in the
map; the fallback result is irrelevant junk for that impossible case. -/
def findResult (m : List (List Char × ValidationResult))
    (x : List Char) : ValidationResult :=
  match m.find? (fun p => p.1 = x) with
  | some p => p.2
  | none =>
      { isValid := false, isDuplicate := false, normalizedNumber := [],
        existingRecord := none, error := none }

/-- The mutable accumulators of the second pass of
`validatePhoneNumbers`. -/
structure ClassifyState where
  results : List ValidationResult
  validNumbers : List (List Char)
  duplicateNumbers : List (List Char)
  invalidNumbers : List (List Char)
  newNumbers : List (List Char)
  databaseDuplicates : List (List Char)
  uniqueNewNumbers : List (List Char)
deriving DecidableEq, Repr

def ClassifyState.init : ClassifyState :=
  ⟨[], [], [], [], [], [], []⟩

/-- One iteration of the `for (const phoneNumber of phoneNumbers)`
loop of `validatePhoneNumbers`. -/
def classifyStep (m : List (List Char × ValidationResult))
    (s : ClassifyState) (phoneNumber : List Char) : ClassifyState :=
  let result := findResult m phoneNumber
  let s := { s with results := s.results ++ [result] }
  if !result.isValid then
    { s with invalidNumbers := s.invalidNumbers ++ [phoneNumber] }
  else if result.isDuplicate then
    { s with
      duplicateNumbers := s.duplicateNumbers ++ [phoneNumber]
      validNumbers := s.validNumbers ++ [phoneNumber]
      databaseDuplicates :=
        if phoneNumber ∈ s.databaseDuplicates then s.databaseDuplicates
        else s.databaseDuplicates ++ [phoneNumber] }
  else
    { s with
      newNumbers := s.newNumbers ++ [phoneNumber]
      validNumbers := s.validNumbers ++ [phoneNumber]
      uniqueNewNumbers :=
        if phoneNumber ∈ s.uniqueNewNumbers then s.uniqueNewNumbers
        else s.uniqueNewNumbers ++ [phoneNumber] }

/-- `BulkValidationResult` from `numberValidation.ts`. -/
structure BulkValidationResult where
  validNumbers : List (List Char)
  duplicateNumbers : List (List Char)
  invalidNumbers : List (List Char)
  newNumbers : List (List Char)
  results : List ValidationResult
  totalInputNumbers : Nat
  uniqueInputNumbers : List (List Char)
  intraInputDuplicates : List (List Char)
  databaseDuplicates : List (List Char)
  uniqueNewNumbers : List (List Char)
deriving DecidableEq, Repr

/-- `validatePhoneNumbers` from `numberValidation.ts`: dedup the raw
batch, resolve one `ValidationResult` per unique raw value, then walk
the original batch in order distributing each occurrence into the
accumulator lists. -/
def validatePhoneNumbers (db : List Char → Except String Bool)
    (phoneNumbers : List (List Char)) : BulkValidationResult :=
  let uniqueResults := uniqueResultsOf db phoneNumbers
  let s := phoneNumbers.foldl (classifyStep uniqueResults) ClassifyState.init
  { validNumbers := s.validNumbers
    duplicateNumbers := s.duplicateNumbers
    invalidNumbers := s.invalidNumbers
    newNumbers := s.newNumbers
    results := s.results
    totalInputNumbers := phoneNumbers.length
    uniqueInputNumbers := uniqueFirstSeen phoneNumbers
    intraInputDuplicates := intraInputDuplicatesOf phoneNumbers
    databaseDuplicates := s.databaseDuplicates
    uniqueNewNumbers := s.uniqueNewNumbers }

end NumberValidation

namespace RateLimiting

/-- `RequestRecord` from `rateLimiter.ts`. -/
structure RequestRecord where
  timestamp : Int
  count : Nat
deriving DecidableEq, Repr

/-- The state of a `RateLimiter` instance: configuration plus the
`requests` map (modelled as an association list; JavaScript `Map`
iteration and replacement semantics are keyed by identifier). -/
structure RateLimiter where
  windowMs : Int
  maxRequests : Nat
  requests : List (String × List RequestRecord)
deriving DecidableEq, Repr

/-- `this.requests.get(identifier) || []`. -/
def getHistory (m : List (String × List RequestRecord))
    (identifier : String) : List RequestRecord :=
  match m.find? (fun p => p.1 = identifier) with
  | some p => p.2
  | none => []

/-- `this.requests.set(identifier, history)`: replace the entry if the
key is present, otherwise append it. -/
def setHistory (m : List (String × List RequestRecord))
    (identifier : String) (h : List RequestRecord) :
    List (String × List RequestRecord) :=
  if m.any (fun p => p.1 = identifier) then
    m.map (fun p => if p.1 = identifier then (identifier, h) else p)
  else
    m ++ [(identifier, h)]

/-- The result record of `checkLimit`. -/
structure CheckResult where
  allowed : Bool
  resetTime : Option Int
deriving DecidableEq, Repr

/-- The in-window samples that `checkLimit` would retain at time
`now`: those with `timestamp > now - windowMs`. -/
def inWindowHistory (rl : RateLimiter) (identifier : String)
    (now : Int) : List RequestRecord :=
  (getHistory rl.requests identifier).filter
    (fun r => now - rl.windowMs < r.timestamp)

/-- `RateLimiter.checkLimit` from `rateLimiter.ts`, with `Date.now()`
passed explicitly as `now`.  Returns the updated limiter state and the
result; on denial the `requests` map is left unchanged (the filtered
history is discarded without a `set`). -/
def checkLimit (rl : RateLimiter) (identifier : String) (now : Int) :
    RateLimiter × CheckResult :=
  let requestHistory := inWindowHistory rl identifier now
  let totalRequests := (requestHistory.map (fun r => r.count)).sum
  if rl.maxRequests ≤ totalRequests then
    let resetTime :=
      match requestHistory.head? with
      | some oldestRequest => oldestRequest.timestamp + rl.windowMs
      | none => now + rl.windowMs
    (rl, { allowed := false, resetTime := some resetTime })
  else
    ({ rl with
        requests := setHistory rl.requests identifier
          (requestHistory ++ [{ timestamp := now, count := 1 }]) },
     { allowed := true, resetTime := none })

end RateLimiting

namespace TwilioService

/-- `WhatsAppResult` from `twilio.ts`. -/
structure WhatsAppResult where
  phoneNumber : List Char
  success : Bool
  messageId : Option String
  error : Option String
deriving DecidableEq, Repr

/-- `BulkWhatsAppResult` from `twilio.ts`. -/
structure BulkWhatsAppResult where
  totalSent : Nat
  totalFailed : Nat
  results : List WhatsAppResult
deriving DecidableEq, Repr

/-- `TemplateMessage` from `twilio.ts`. -/
structure TemplateMessage where
  templateName : String
  templateLanguage : Option String
  templateVariables : Option (List String)
deriving DecidableEq, Repr

/-- `MessageOptions` from `twilio.ts`. -/
structure MessageOptions where
  message : Option String
  template : Option TemplateMessage
deriving DecidableEq, Repr

/-- The outbound `messagePayload` handed to
`client.messages.create`.  `contentVariables` is the association of
1-based placeholder indices (as decimal strings) to variables that the
code serializes with `JSON.stringify`. -/
structure MessagePayload where
  fromAddr : List Char
  toNumber : List Char
  contentSid : Option String
  contentVariables : Option (List (String × String))
  body : Option String
deriving DecidableEq, Repr

/-- `cleanPhoneNumber` from `twilio.ts`: strip to digits and `+`, then
apply the US 10/11-digit heuristics. -/
def cleanPhoneNumber (phoneNumber : List Char) : List Char :=
  let cleaned := phoneNumber.filter NumberValidation.keepDigitPlus
  if cleaned.length = 11 ∧ cleaned.take 1 = ['1'] then
    '+' :: cleaned
  else if cleaned.length = 10 then
    '+' :: '1' :: cleaned
  else if ¬ cleaned.take 1 = ['+'] then
    '+' :: cleaned
  else
    cleaned

/-- The transport layer's own format test, the regex
`^\+[1-9]\d{1,14}$` from `twilio.ts`. -/
def isValidPhoneNumber (phoneNumber : List Char) : Bool :=
  match phoneNumber with
  | '+' :: d :: rest =>
      d.isDigit && !(d = '0') && rest.all Char.isDigit
        && decide (1 ≤ rest.length) && decide (rest.length ≤ 14)
  | _ => false

/-- JavaScript truthiness of an optional string: `undefined` and the
empty string are falsy. -/
def isTruthyStr : Option String → Bool
  | none => false
  | some s => decide (0 < s.length)

/-- The payload-construction block of `sendWhatsApp`: template branch
first, then freeform, else the `"Either message or template must be
provided"` throw (returned as `none`). -/
def buildPayload (fromNumber cleanedNumber : List Char)
    (options : MessageOptions) : Option MessagePayload :=
  match options.template with
  | some t =>
      let vars :=
        match t.templateVariables with
        | some vs =>
            if 0 < vs.length then
              some ((List.range vs.length).zip vs |>.map
                (fun p => (toString (p.1 + 1), p.2)))
            else none
        | none => none
      some { fromAddr := fromNumber, toNumber := cleanedNumber,
             contentSid := some t.templateName,
             contentVariables := vars, body := none }
  | none =>
      if isTruthyStr options.message then
        some { fromAddr := fromNumber, toNumber := cleanedNumber,
               contentSid := none, contentVariables := none,
               body := options.message }
      else
        none

/-- `error.message.includes("63016")`: substring containment. -/
def hasWindowCode : List Char → Bool
  | [] => "63016".data.isEmpty
  | c :: t => "63016".data.isPrefixOf (c :: t) || hasWindowCode t

/-- The remapped error text for Twilio error code 63016. -/
def windowErrorText : String :=
  "Outside 24-hour window. Use a message template instead of freeform message."

/-- `sendWhatsApp` from `twilio.ts` (template-capable version used by
the send route).  `transport` stands for `client.messages.create`,
returning the message sid or failing with an error message; the
`catch` block remaps a 63016-tagged failure and passes any other
message through. -/
def sendWhatsApp (transport : MessagePayload → Except String String)
    (fromNumber toNumber : List Char) (options : MessageOptions) : WhatsAppResult :=
  let cleanedNumber := cleanPhoneNumber toNumber
  if !isValidPhoneNumber cleanedNumber then
    { phoneNumber := toNumber, success := false, messageId := none,
      error := some "Invalid phone number format" }
  else
    match buildPayload fromNumber cleanedNumber options with
    | none =>
        { phoneNumber := toNumber, success := false, messageId := none,
          error := some "Either message or template must be provided" }
    | some payload =>
        match transport payload with
        | .ok sid =>
            { phoneNumber := toNumber, success := true, messageId := some sid,
              error := none }
        | .error msg =>
            if hasWindowCode msg.data then
              { phoneNumber := toNumber, success := false, messageId := none,
                error := some windowErrorText }
            else
              { phoneNumber := toNumber, success := false, messageId := none,
                error := some msg }

/-- The loop body sequence of `sendBulkWhatsApp`: one sequential
`sendWhatsApp` call per identifier.  The transport is indexed by call
number to model the external client's behavior across the strictly
sequential calls. -/
def sendBulkResults (transport : Nat → MessagePayload → Except String String)
    (fromNumber : List Char) (options : MessageOptions) :
    Nat → List (List Char) → List WhatsAppResult
  | _, [] => []
  | i, phoneNumber :: rest =>
      sendWhatsApp (transport i) fromNumber phoneNumber options
        :: sendBulkResults transport fromNumber options (i + 1) rest

/-- `sendBulkWhatsApp` from `twilio.ts`: sequential dispatch; the
`totalSent`/`totalFailed` counters incremented per iteration equal the
success/failure counts of the accumulated result list. -/
def sendBulkWhatsApp (transport : Nat → MessagePayload → Except String String)
    (fromNumber : List Char) (phoneNumbers : List (List Char))
    (options : MessageOptions) : BulkWhatsAppResult :=
  let results := sendBulkResults transport fromNumber options 0 phoneNumbers
  { totalSent := (results.filter (fun r => r.success)).length
    totalFailed := (results.filter (fun r => !r.success)).length
    results := results }

end TwilioService

namespace SendRoute

/-- The HTTP responses the send route can produce on the paths the
model covers. -/
inductive Response where
  | badRequest (error : String)
  | okSent (data : TwilioService.BulkWhatsAppResult)
deriving DecidableEq, Repr

/-- Observable effects and response of one `POST /api/sms/send`
invocation: which numbers were handed to `storePhoneNumbers`, which
numbers were handed to `sendBulkWhatsApp` (`none` when no send was
attempted), and the response. -/
structure RouteOutcome where
  stored : List (List Char)
  sent : Option (List (List Char))
  response : Response
deriving DecidableEq, Repr

/-- `POST` from `src/app/api/sms/send/route.ts`, restricted to the
request fields the modelled paths consult (`phoneNumbers`, `message`,
`templateName`; the `template` object alternative and the
language/variables plumbing are elided).  `runMigrations` and
`storePhoneNumbers` are assumed to succeed (a storage failure is
caught and the route continues); `db` backs the classifier's lookups
and `transport` backs the Twilio client.  Order of operations follows
the source: request validation, bulk classification, persistence of
new numbers, the no-valid-numbers guard, then the freeform
1600-character guard, then dispatch. -/
def POST (db : List Char → Except String Bool)
    (transport : Nat → TwilioService.MessagePayload → Except String String)
    (fromNumber : List Char) (phoneNumbers : List (List Char))
    (message : Option String) (templateName : Option String) : RouteOutcome :=
  if phoneNumbers.length = 0 then
    ⟨[], none, .badRequest "Phone numbers array is required and cannot be empty"⟩
  else if !TwilioService.isTruthyStr message ∧ templateName = none then
    ⟨[], none, .badRequest "Either message or template must be provided"⟩
  else if 100 < phoneNumbers.length then
    ⟨[], none, .badRequest "Maximum 100 phone numbers allowed per request"⟩
  else
    let validationResult := NumberValidation.validatePhoneNumbers db phoneNumbers
    let stored := validationResult.newNumbers
    let numbersToSend := validationResult.validNumbers
    if numbersToSend.length = 0 then
      ⟨stored, none, .badRequest "No valid phone numbers to send to"⟩
    else
      match templateName with
      | some tn =>
          let options : TwilioService.MessageOptions :=
            { message := none
              template := some { templateName := tn,
                                 templateLanguage := some "en",
                                 templateVariables := none } }
          ⟨stored, some numbersToSend,
            .okSent (TwilioService.sendBulkWhatsApp transport fromNumber
              numbersToSend options)⟩
      | none =>
          match message with
          | some m =>
              if 1600 < m.length then
                ⟨stored, none,
                  .badRequest "Message is too long. Maximum length is 1600 characters."⟩
              else
                let options : TwilioService.MessageOptions :=
                  { message := some m.trim, template := none }
                ⟨stored, some numbersToSend,
                  .okSent (TwilioService.sendBulkWhatsApp transport fromNumber
                    numbersToSend options)⟩
          | none =>
              ⟨stored, none, .badRequest "Either message or template must be provided"⟩

end SendRoute

/-! ## Theorems -/

namespace NumberValidation

theorem keepDigitPlus_plus : keepDigitPlus '+' = true := by decide

theorem filter_keepDigitPlus_idem (l : List Char) :
    (l.filter keepDigitPlus).filter keepDigitPlus = l.filter keepDigitPlus := by
  apply List.filter_eq_self.mpr
  intro a ha
  exact (List.mem_filter.mp ha).2

theorem filter_keepDigitPlus_drop (l : List Char) (n : ℕ) :
    ((l.filter keepDigitPlus).drop n).filter keepDigitPlus
      = (l.filter keepDigitPlus).drop n := by
  apply List.filter_eq_self.mpr
  intro a ha
  exact (List.mem_filter.mp (List.mem_of_mem_drop ha)).2

/-- C4: normalization is idempotent: for every string `x`,
`normalize(normalize(x)) = normalize(x)`. -/
theorem normalizePhoneNumber_idempotent (x : List Char) :
    normalizePhoneNumber (normalizePhoneNumber x) = normalizePhoneNumber x := by
  unfold normalizePhoneNumber
  by_cases hA : (x.filter keepDigitPlus).take 1 = ['+']
  · simp only [hA, if_pos]
    simp [filter_keepDigitPlus_idem, hA]
  · by_cases hB : (x.filter keepDigitPlus).take 2 = ['0', '0']
    · simp only [hA, if_neg, hB, if_pos, if_false]
      have hfilter : ('+' :: (x.filter keepDigitPlus).drop 2).filter keepDigitPlus
          = '+' :: (x.filter keepDigitPlus).drop 2 := by
        simp [List.filter, keepDigitPlus_plus, filter_keepDigitPlus_drop]
      simp [hfilter]
    · by_cases hC : 10 ≤ (x.filter keepDigitPlus).length
      · simp only [hA, hB, hC, if_neg, if_pos, if_false, if_true]
        have hfilter : ('+' :: x.filter keepDigitPlus).filter keepDigitPlus
            = '+' :: x.filter keepDigitPlus := by
          simp [List.filter, keepDigitPlus_plus, filter_keepDigitPlus_idem]
        simp [hfilter]
      · simp only [hA, hB, hC, if_neg, if_false]
        simp [filter_keepDigitPlus_idem, hA, hB, hC]

theorem classifyStep_partition_count (m : List (List Char × ValidationResult))
    (s : ClassifyState) (x : List Char) :
    (classifyStep m s x).invalidNumbers.length
      + (classifyStep m s x).duplicateNumbers.length
      + (classifyStep m s x).newNumbers.length
    = s.invalidNumbers.length + s.duplicateNumbers.length
      + s.newNumbers.length + 1 := by
  unfold classifyStep
  cases h1 : (findResult m x).isValid
  · simp only [h1]
    simp
    omega
  · cases h2 : (findResult m x).isDuplicate
    · simp only [h1, h2]
      simp
      omega
    · simp only [h1, h2]
      simp
      omega

theorem foldl_partition_count (m : List (List Char × ValidationResult)) :
    ∀ (l : List (List Char)) (s : ClassifyState),
    (l.foldl (classifyStep m) s).invalidNumbers.length
      + (l.foldl (classifyStep m) s).duplicateNumbers.length
      + (l.foldl (classifyStep m) s).newNumbers.length
    = s.invalidNumbers.length + s.duplicateNumbers.length
      + s.newNumbers.length + l.length
  | [], s => by simp
  | x :: xs, s => by
      rw [List.foldl_cons, foldl_partition_count m xs]
      have := classifyStep_partition_count m s x
      simp only [List.length_cons]
      omega

/-- C1: per-occurrence classification partitions the batch completely:
for every lookup and every raw batch, the invalid, duplicate-occurrence
and new-occurrence lists together have exactly one entry per input
occurrence. -/
theorem validatePhoneNumbers_partition (db : List Char → Except String Bool)
    (l : List (List Char)) :
    (validatePhoneNumbers db l).invalidNumbers.length
      + (validatePhoneNumbers db l).duplicateNumbers.length
      + (validatePhoneNumbers db l).newNumbers.length = l.length := by
  have := foldl_partition_count (uniqueResultsOf db l) l ClassifyState.init
  simpa [validatePhoneNumbers, ClassifyState.init] using this

/-- C9: the regex test accepts exactly a leading `+` followed by 7–15
digits, `isValidPhoneNumber` is that test applied to the normalized
input, and the four boundary examples behave as stated. -/
theorem isValidPhoneNumber_boundary :
    (∀ s : List Char, phoneRegexTest s = true ↔
      ∃ rest, s = '+' :: rest ∧ rest.all Char.isDigit = true
        ∧ 7 ≤ rest.length ∧ rest.length ≤ 15) ∧
    (∀ x : List Char,
      isValidPhoneNumber x = phoneRegexTest (normalizePhoneNumber x)) ∧
    isValidPhoneNumber "+123456".data = false ∧
    isValidPhoneNumber "+1234567".data = true ∧
    isValidPhoneNumber "+123456789012345".data = true ∧
    isValidPhoneNumber "+1234567890123456".data = false := by
  refine ⟨?_, fun x => rfl, by decide, by decide, by decide, by decide⟩
  intro s
  match s with
  | [] => simp [phoneRegexTest]
  | c :: rest =>
      simp only [phoneRegexTest, Bool.and_eq_true, decide_eq_true_eq]
      constructor
      · rintro ⟨⟨⟨hc, hd⟩, h7⟩, h15⟩
        exact ⟨rest, by rw [hc], hd, h7, h15⟩
      · rintro ⟨rest', heq, hd, h7, h15⟩
        injection heq with hc hr
        subst hc
        subst hr
        exact ⟨⟨⟨rfl, hd⟩, h7⟩, h15⟩

/-- C8: the concrete classification scenario of the spec: batch
`["+1234567890", "bad", "+1234567890", "+0987654321"]` against a store
containing exactly `"+0987654321"`. -/
theorem classification_scenario :
    (validatePhoneNumbers (fun n => .ok (n = "+0987654321".data))
        ["+1234567890".data, "bad".data, "+1234567890".data, "+0987654321".data]).invalidNumbers
      = ["bad".data] ∧
    (validatePhoneNumbers (fun n => .ok (n = "+0987654321".data))
        ["+1234567890".data, "bad".data, "+1234567890".data, "+0987654321".data]).intraInputDuplicates
      = ["+1234567890".data, "+1234567890".data] ∧
    (validatePhoneNumbers (fun n => .ok (n = "+0987654321".data))
        ["+1234567890".data, "bad".data, "+1234567890".data, "+0987654321".data]).databaseDuplicates
      = ["+0987654321".data] ∧
    (validatePhoneNumbers (fun n => .ok (n = "+0987654321".data))
        ["+1234567890".data, "bad".data, "+1234567890".data, "+0987654321".data]).newNumbers
      = ["+1234567890".data, "+1234567890".data] ∧
    (validatePhoneNumbers (fun n => .ok (n = "+0987654321".data))
        ["+1234567890".data, "bad".data, "+1234567890".data, "+0987654321".data]).duplicateNumbers
      = ["+0987654321".data] ∧
    (validatePhoneNumbers (fun n => .ok (n = "+0987654321".data))
        ["+1234567890".data, "bad".data, "+1234567890".data, "+0987654321".data]).uniqueNewNumbers
      = ["+1234567890".data] := by
  decide


theorem mem_foldl_insertUnique :
    ∀ (l : List (List Char)) (acc : List (List Char)) (y : List Char),
      y ∈ l.foldl (fun acc x => if x ∈ acc then acc else acc ++ [x]) acc
        ↔ y ∈ acc ∨ y ∈ l
  | [], acc, y => by simp
  | x :: xs, acc, y => by
      rw [List.foldl_cons]
      rw [mem_foldl_insertUnique xs _ y]
      by_cases hx : x ∈ acc
      · simp only [if_pos hx, List.mem_cons]
        constructor
        · rintro (h | h)
          · exact Or.inl h
          · exact Or.inr (Or.inr h)
        · rintro (h | h | h)
          · exact Or.inl h
          · exact Or.inl (h ▸ hx)
          · exact Or.inr h
      · simp only [if_neg hx, List.mem_append, List.mem_singleton, List.mem_cons]
        tauto

theorem nodup_foldl_insertUnique :
    ∀ (l : List (List Char)) (acc : List (List Char)), acc.Nodup →
      (l.foldl (fun acc x => if x ∈ acc then acc else acc ++ [x]) acc).Nodup
  | [], acc, h => h
  | x :: xs, acc, h => by
      rw [List.foldl_cons]
      by_cases hx : x ∈ acc
      · rw [if_pos hx]
        exact nodup_foldl_insertUnique xs acc h
      · rw [if_neg hx]
        refine nodup_foldl_insertUnique xs _ ?_
        refine List.Nodup.append h (List.nodup_singleton x) ?_
        intro a ha hb
        rw [List.mem_singleton] at hb
        exact hx (hb ▸ ha)

theorem mem_uniqueFirstSeen (l : List (List Char)) (y : List Char) :
    y ∈ uniqueFirstSeen l ↔ y ∈ l := by
  unfold uniqueFirstSeen
  rw [mem_foldl_insertUnique]
  simp

theorem nodup_uniqueFirstSeen (l : List (List Char)) :
    (uniqueFirstSeen l).Nodup :=
  nodup_foldl_insertUnique l [] List.nodup_nil

theorem findResult_map (g : List Char → ValidationResult) :
    ∀ (ks : List (List Char)) (x : List Char), x ∈ ks →
      findResult (ks.map (fun k => (k, g k))) x = g x
  | [], x, h => absurd h (List.not_mem_nil x)
  | k :: ks, x, h => by
      by_cases hk : k = x
      · subst hk
        simp [findResult, List.find?]
      · have hx : x ∈ ks := by
          rcases List.mem_cons.mp h with h' | h'
          · exact absurd h'.symm hk
          · exact h'
        have ih := findResult_map g ks x hx
        unfold findResult at ih ⊢
        simp only [List.map_cons]
        rw [List.find?_cons_of_neg]
        · exact ih
        · simp [hk]

theorem findResult_uniqueResultsOf (db : List Char → Except String Bool)
    (l : List (List Char)) (x : List Char) (h : x ∈ l) :
    findResult (uniqueResultsOf db l) x = validatePhoneNumber db x :=
  findResult_map (validatePhoneNumber db) (uniqueFirstSeen l) x
    ((mem_uniqueFirstSeen l x).mpr h)

/-- C2 counterexample: with a store whose lookup fails, classification
of `["+1234567890"]` does not abort: `checkNumberExists` fails, yet
`validatePhoneNumbers` returns a complete result that classifies the
occurrence into the invalid bucket, carrying the database error
message. -/
theorem lookup_failure_counterexample :
    checkNumberExists (fun _ => .error "connection refused") "+1234567890".data
        = .error "Database error while checking number" ∧
    (validatePhoneNumbers (fun _ => .error "connection refused")
        ["+1234567890".data]).invalidNumbers = ["+1234567890".data] ∧
    (validatePhoneNumbers (fun _ => .error "connection refused")
        ["+1234567890".data]).results
      = [{ isValid := false, isDuplicate := false,
           normalizedNumber := "+1234567890".data, existingRecord := none,
           error := some "Database error while checking number" }] :=
  ⟨rfl, by decide, by decide⟩

/-- C2 amended: a lookup failure for a format-valid value is caught
inside single-value validation: the value is reported as an invalid
(not valid, not duplicate) result carrying the message `"Database
error while checking number"`, and no error escapes to the caller. -/
theorem lookup_failure_caught (db : List Char → Except String Bool)
    (x : List Char) (e : String)
    (hv : isValidPhoneNumber x = true)
    (he : db (normalizePhoneNumber x) = .error e) :
    validatePhoneNumber db x =
      { isValid := false, isDuplicate := false,
        normalizedNumber := normalizePhoneNumber x, existingRecord := none,
        error := some "Database error while checking number" } := by
  simp [validatePhoneNumber, hv, checkNumberExists, he]

theorem lookup_failure_caught_witness :
    validatePhoneNumber (fun _ => .error "connection refused") "+19876543210".data =
      { isValid := false, isDuplicate := false,
        normalizedNumber := NumberValidation.normalizePhoneNumber "+19876543210".data,
        existingRecord := none,
        error := some "Database error while checking number" } :=
  lookup_failure_caught (fun _ => .error "connection refused") "+19876543210".data
    "connection refused" (by decide) rfl

/-- C5 counterexample: the raw values `"+1234567890"` and
`"+1 234 567 890"` have equal normalizations, yet the deduplicated
unique-input set keeps both, the intra-batch repeat list misses them,
and the unique-new summary set lists both: identity for these sets is
raw-string equality, not canonical-identifier equality. -/
theorem canonical_identity_counterexample :
    normalizePhoneNumber "+1234567890".data
        = normalizePhoneNumber "+1 234 567 890".data ∧
    "+1234567890".data ≠ "+1 234 567 890".data ∧
    (validatePhoneNumbers (fun _ => .ok false)
        ["+1234567890".data, "+1 234 567 890".data]).uniqueInputNumbers
      = ["+1234567890".data, "+1 234 567 890".data] ∧
    (validatePhoneNumbers (fun _ => .ok false)
        ["+1234567890".data, "+1 234 567 890".data]).intraInputDuplicates = [] ∧
    (validatePhoneNumbers (fun _ => .ok false)
        ["+1234567890".data, "+1 234 567 890".data]).uniqueNewNumbers
      = ["+1234567890".data, "+1 234 567 890".data] := by
  decide

/-- C5 amended: the canonical identifier is the key only for the
persistence lookup (single-value validation depends on the lookup only
at the normalized value), while the deduplicated unique-input set is
keyed by raw-string equality: it has no raw-string duplicates and
exactly the raw batch's members. -/
theorem raw_identity_classification (db1 db2 : List Char → Except String Bool)
    (x : List Char) (l : List (List Char))
    (h : db1 (normalizePhoneNumber x) = db2 (normalizePhoneNumber x)) :
    validatePhoneNumber db1 x = validatePhoneNumber db2 x ∧
    (validatePhoneNumbers db1 l).uniqueInputNumbers.Nodup ∧
    (∀ y, y ∈ (validatePhoneNumbers db1 l).uniqueInputNumbers ↔ y ∈ l) := by
  refine ⟨?_, ?_, ?_⟩
  · simp [validatePhoneNumber, checkNumberExists, h]
  · simpa [validatePhoneNumbers] using nodup_uniqueFirstSeen l
  · intro y
    simpa [validatePhoneNumbers] using mem_uniqueFirstSeen l y

theorem raw_identity_classification_witness :
    validatePhoneNumber (fun _ => .ok false) "+1234567890".data
        = validatePhoneNumber (fun n => .ok (n.length = 0)) "+1234567890".data ∧
    (validatePhoneNumbers (fun _ => .ok false)
        ["+1234567890".data, "+1234567890".data]).uniqueInputNumbers.Nodup ∧
    (∀ y, y ∈ (validatePhoneNumbers (fun _ => .ok false)
        ["+1234567890".data, "+1234567890".data]).uniqueInputNumbers
      ↔ y ∈ ["+1234567890".data, "+1234567890".data]) :=
  raw_identity_classification (fun _ => .ok false) (fun n => .ok (n.length = 0))
    "+1234567890".data ["+1234567890".data, "+1234567890".data] rfl

theorem isValidPhoneNumber_boundary_witness :
    phoneRegexTest "+1234567".data = true :=
  (isValidPhoneNumber_boundary.1 "+1234567".data).mpr
    ⟨"1234567".data, rfl, by decide, by decide, by decide⟩

end NumberValidation

namespace RateLimiting

/-- C6: with `maxRequests = 1`, `windowMs = 1000`, two `checkLimit`
calls for the same scope within 1000 ms: the first is allowed, the
second denied with `resetTime` equal to the first call's timestamp
plus 1000; and in general a denied call's `resetTime` is the oldest
in-window sample's timestamp plus `windowMs`, or `now + windowMs` when
no sample remains in the window. -/
theorem checkLimit_scenario (t1 t2 : Int) (h1 : t1 ≤ t2) (h2 : t2 < t1 + 1000) :
    (checkLimit ⟨1000, 1, []⟩ "whatsapp" t1).2.allowed = true ∧
    (checkLimit (checkLimit ⟨1000, 1, []⟩ "whatsapp" t1).1 "whatsapp" t2).2
      = ⟨false, some (t1 + 1000)⟩ ∧
    (∀ (rl : RateLimiter) (identifier : String) (now : Int),
      (checkLimit rl identifier now).2.allowed = false →
      (checkLimit rl identifier now).2.resetTime = some
        (match (inWindowHistory rl identifier now).head? with
         | some oldestRequest => oldestRequest.timestamp + rl.windowMs
         | none => now + rl.windowMs)) := by
  refine ⟨rfl, ?_, ?_⟩
  · have hf : t2 - 1000 < t1 := by omega
    simp [checkLimit, inWindowHistory, getHistory, setHistory, hf]
  · intro rl identifier now hden
    unfold checkLimit at hden ⊢
    by_cases hc : rl.maxRequests ≤
        ((inWindowHistory rl identifier now).map (fun r => r.count)).sum
    · simp only [if_pos hc]
    · simp only [if_neg hc] at hden
      exact absurd hden (by decide)

theorem checkLimit_scenario_witness :
    (checkLimit ⟨1000, 1, []⟩ "whatsapp" 0).2.allowed = true ∧
    (checkLimit (checkLimit ⟨1000, 1, []⟩ "whatsapp" 0).1 "whatsapp" 500).2
      = ⟨false, some (0 + 1000)⟩ ∧
    (∀ (rl : RateLimiter) (identifier : String) (now : Int),
      (checkLimit rl identifier now).2.allowed = false →
      (checkLimit rl identifier now).2.resetTime = some
        (match (inWindowHistory rl identifier now).head? with
         | some oldestRequest => oldestRequest.timestamp + rl.windowMs
         | none => now + rl.windowMs)) :=
  checkLimit_scenario 0 500 (by decide) (by decide)

end RateLimiting

namespace TwilioService

theorem sendWhatsApp_phoneNumber (transport : MessagePayload → Except String String)
    (fromNumber toNumber : List Char) (options : MessageOptions) :
    (sendWhatsApp transport fromNumber toNumber options).phoneNumber = toNumber := by
  unfold sendWhatsApp
  by_cases hv : isValidPhoneNumber (cleanPhoneNumber toNumber) = true
  · rcases hb : buildPayload fromNumber (cleanPhoneNumber toNumber) options with _ | p
    · simp [hv, hb]
    · rcases ht : transport p with msg | sid
      · by_cases hc : hasWindowCode msg.data = true
        · simp [hv, hb, ht, hc]
        · simp [hv, hb, ht, hc]
      · simp [hv, hb, ht]
  · rw [Bool.not_eq_true] at hv
    simp [hv]

theorem sendBulkResults_map_phoneNumber
    (transport : Nat → MessagePayload → Except String String)
    (fromNumber : List Char) (options : MessageOptions) :
    ∀ (i : Nat) (l : List (List Char)),
      (sendBulkResults transport fromNumber options i l).map
        (fun r => r.phoneNumber) = l
  | _, [] => rfl
  | i, x :: xs => by
      simp only [sendBulkResults, List.map_cons]
      rw [sendWhatsApp_phoneNumber,
        sendBulkResults_map_phoneNumber transport fromNumber options (i + 1) xs]

theorem length_filter_add_length_filter_not {α : Type} (p : α → Bool)
    (l : List α) :
    (l.filter p).length + (l.filter (fun a => !p a)).length = l.length := by
  induction l with
  | nil => rfl
  | cons x xs ih =>
      cases h : p x <;> simp [List.filter_cons, h] <;> omega

/-- C3: the bulk dispatcher produces exactly one outcome per input
identifier, in input order (the outcome list mapped to its
`phoneNumber` field is the input list), for every transport behavior —
in particular a per-item transport failure never drops the remaining
identifiers — and `totalSent + totalFailed` equals the number of
outcomes. -/
theorem sendBulkWhatsApp_outcomes
    (transport : Nat → MessagePayload → Except String String)
    (fromNumber : List Char) (phoneNumbers : List (List Char))
    (options : MessageOptions) :
    ((sendBulkWhatsApp transport fromNumber phoneNumbers options).results.map
        (fun r => r.phoneNumber) = phoneNumbers) ∧
    (sendBulkWhatsApp transport fromNumber phoneNumbers options).results.length
      = phoneNumbers.length ∧
    (sendBulkWhatsApp transport fromNumber phoneNumbers options).totalSent
      + (sendBulkWhatsApp transport fromNumber phoneNumbers options).totalFailed
      = (sendBulkWhatsApp transport fromNumber phoneNumbers options).results.length := by
  refine ⟨sendBulkResults_map_phoneNumber transport fromNumber options 0 phoneNumbers,
    ?_, ?_⟩
  · have h := sendBulkResults_map_phoneNumber transport fromNumber options 0 phoneNumbers
    have h2 : ((sendBulkResults transport fromNumber options 0 phoneNumbers).map
        (fun r : WhatsAppResult => r.phoneNumber)).length = phoneNumbers.length := by
      rw [h]
    simpa [sendBulkWhatsApp, List.length_map] using h2
  · simp only [sendBulkWhatsApp]
    exact length_filter_add_length_filter_not (fun r : WhatsAppResult => r.success) _

/-- C7: a transport failure whose error message carries the provider's
63016 "outside window" code is remapped by `sendWhatsApp` to the
distinguished outside-24-hour-window error text, not passed through as
the raw/unknown message. -/
theorem window_error_remap (transport : MessagePayload → Except String String)
    (fromNumber toNumber : List Char) (options : MessageOptions)
    (payload : MessagePayload) (msg : String)
    (hvalid : isValidPhoneNumber (cleanPhoneNumber toNumber) = true)
    (hpayload : buildPayload fromNumber (cleanPhoneNumber toNumber) options
      = some payload)
    (herr : transport payload = .error msg)
    (hcode : hasWindowCode msg.data = true) :
    sendWhatsApp transport fromNumber toNumber options =
      { phoneNumber := toNumber, success := false, messageId := none,
        error := some windowErrorText } := by
  simp [sendWhatsApp, hvalid, hpayload, herr, hcode]

theorem window_error_remap_witness :
    sendWhatsApp (fun _ => .error "Error 63016: outside allowed window")
      "+10000000000".data "+12345678901".data
      { message := some "hello", template := none } =
      { phoneNumber := "+12345678901".data, success := false, messageId := none,
        error := some windowErrorText } :=
  window_error_remap (fun _ => .error "Error 63016: outside allowed window")
    "+10000000000".data "+12345678901".data
    { message := some "hello", template := none }
    { fromAddr := "+10000000000".data,
      toNumber := cleanPhoneNumber "+12345678901".data,
      contentSid := none, contentVariables := none, body := some "hello" }
    "Error 63016: outside allowed window"
    (by decide) (by decide) rfl (by decide)

end TwilioService

namespace NumberValidation

theorem foldl_valid_eq (m : List (List Char × ValidationResult)) :
    ∀ (l : List (List Char)) (s : ClassifyState),
      s.validNumbers.length = s.duplicateNumbers.length + s.newNumbers.length →
      (l.foldl (classifyStep m) s).validNumbers.length
        = (l.foldl (classifyStep m) s).duplicateNumbers.length
          + (l.foldl (classifyStep m) s).newNumbers.length
  | [], _, h => h
  | x :: xs, s, h => by
      rw [List.foldl_cons]
      apply foldl_valid_eq m xs
      unfold classifyStep
      cases h1 : (findResult m x).isValid
      · simp only [h1]
        simp
        omega
      · cases h2 : (findResult m x).isDuplicate
        · simp only [h1, h2]
          simp
          omega
        · simp only [h1, h2]
          simp
          omega

theorem validatePhoneNumbers_valid_count (db : List Char → Except String Bool)
    (l : List (List Char)) :
    (validatePhoneNumbers db l).validNumbers.length
      = (validatePhoneNumbers db l).duplicateNumbers.length
        + (validatePhoneNumbers db l).newNumbers.length := by
  simpa [validatePhoneNumbers, ClassifyState.init] using
    foldl_valid_eq (uniqueResultsOf db l) l ClassifyState.init rfl

theorem foldl_newNumbers_mem (m : List (List Char × ValidationResult)) :
    ∀ (l : List (List Char)) (s : ClassifyState) (y : List Char),
      y ∈ (l.foldl (classifyStep m) s).newNumbers →
      y ∈ s.newNumbers ∨
        ((findResult m y).isValid = true ∧ (findResult m y).isDuplicate = false)
  | [], _, _, h => Or.inl h
  | x :: xs, s, y, h => by
      rw [List.foldl_cons] at h
      rcases foldl_newNumbers_mem m xs _ y h with h' | h'
      · unfold classifyStep at h'
        cases h1 : (findResult m x).isValid
        · simp [h1] at h'
          exact Or.inl h'
        · cases h2 : (findResult m x).isDuplicate
          · simp [h1, h2] at h'
            rcases h' with h' | h'
            · exact Or.inl h'
            · subst h'
              exact Or.inr ⟨h1, h2⟩
          · simp [h1, h2] at h'
            exact Or.inl h'
      · exact Or.inr h'

theorem validatePhoneNumber_isValid_format (db : List Char → Except String Bool)
    (y : List Char) (h : (validatePhoneNumber db y).isValid = true) :
    isValidPhoneNumber y = true := by
  cases hv : isValidPhoneNumber y
  · rw [validatePhoneNumber, hv] at h
    simp at h
  · rfl

theorem validatePhoneNumber_isDuplicate_of (db : List Char → Except String Bool)
    (y : List Char) (hv : isValidPhoneNumber y = true)
    (h : db (normalizePhoneNumber y) = .ok true) :
    (validatePhoneNumber db y).isDuplicate = true := by
  simp [validatePhoneNumber, hv, checkNumberExists, h]

theorem mem_newNumbers_isValid (db : List Char → Except String Bool)
    (l : List (List Char)) (y : List Char)
    (h : y ∈ (validatePhoneNumbers db l).newNumbers) :
    isValidPhoneNumber y = true := by
  have h' : y ∈ (l.foldl (classifyStep (uniqueResultsOf db l))
      ClassifyState.init).newNumbers := by
    simpa [validatePhoneNumbers] using h
  rcases foldl_newNumbers_mem (uniqueResultsOf db l) l ClassifyState.init y h'
      with h0 | ⟨hval, _⟩
  · simp [ClassifyState.init] at h0
  · by_cases hy : y ∈ l
    · rw [findResult_uniqueResultsOf db l y hy] at hval
      exact validatePhoneNumber_isValid_format db y hval
    · exfalso
      have : findResult (uniqueResultsOf db l) y =
          { isValid := false, isDuplicate := false, normalizedNumber := [],
            existingRecord := none, error := none } := by
        unfold findResult
        rw [List.find?_eq_none.mpr]
        intro p hp
        simp only [uniqueResultsOf, List.mem_map] at hp
        rcases hp with ⟨k, hk, rfl⟩
        have : k ∈ l := (mem_uniqueFirstSeen l k).mp hk
        simp only [decide_eq_true_eq]
        intro hke
        exact hy (hke ▸ this)
      rw [this] at hval
      simp at hval

end NumberValidation

namespace SendRoute

/-- C10: when the batch passes request validation but the freeform
message exceeds 1600 characters, the route has already handed the
batch's new numbers to the store before the length check rejects the
request: the response is the length error, no send is attempted, yet
`stored` equals the classifier's new numbers — and any later lookup
that reflects the stored normalized keys classifies those numbers as
persisted duplicates even though no message was ever sent. -/
theorem store_before_length_check
    (db : List Char → Except String Bool)
    (transport : Nat → TwilioService.MessagePayload → Except String String)
    (fromNumber : List Char) (phoneNumbers : List (List Char)) (m : String)
    (hne : phoneNumbers.length ≠ 0) (hle : phoneNumbers.length ≤ 100)
    (hlong : 1600 < m.length)
    (hnew : (NumberValidation.validatePhoneNumbers db phoneNumbers).newNumbers ≠ []) :
    (POST db transport fromNumber phoneNumbers (some m) none).stored
        = (NumberValidation.validatePhoneNumbers db phoneNumbers).newNumbers ∧
    (POST db transport fromNumber phoneNumbers (some m) none).sent = none ∧
    (POST db transport fromNumber phoneNumbers (some m) none).response
        = .badRequest "Message is too long. Maximum length is 1600 characters." ∧
    (∀ (db' : List Char → Except String Bool) (y : List Char),
      y ∈ (POST db transport fromNumber phoneNumbers (some m) none).stored →
      db' (NumberValidation.normalizePhoneNumber y) = .ok true →
      (NumberValidation.validatePhoneNumber db' y).isDuplicate = true) := by
  have htrue : TwilioService.isTruthyStr (some m) = true := by
    simp [TwilioService.isTruthyStr]
    omega
  have hvlen : (NumberValidation.validatePhoneNumbers db phoneNumbers).validNumbers.length ≠ 0 := by
    rw [NumberValidation.validatePhoneNumbers_valid_count db phoneNumbers]
    have : (NumberValidation.validatePhoneNumbers db phoneNumbers).newNumbers.length ≠ 0 := by
      simpa [List.length_eq_zero] using hnew
    omega
  have hpost : POST db transport fromNumber phoneNumbers (some m) none =
      ⟨(NumberValidation.validatePhoneNumbers db phoneNumbers).newNumbers, none,
        .badRequest "Message is too long. Maximum length is 1600 characters."⟩ := by
    unfold POST
    rw [if_neg hne, if_neg (by simp [htrue]), if_neg (by omega)]
    simp only []
    rw [if_neg hvlen, if_pos hlong]
  refine ⟨by rw [hpost], by rw [hpost], by rw [hpost], ?_⟩
  intro db' y hy hdb
  rw [hpost] at hy
  have hvalid : NumberValidation.isValidPhoneNumber y = true :=
    NumberValidation.mem_newNumbers_isValid db phoneNumbers y hy
  exact NumberValidation.validatePhoneNumber_isDuplicate_of db' y hvalid hdb

end SendRoute

namespace SendRoute

set_option maxRecDepth 40000 in
theorem store_before_length_check_witness :
    (POST (fun _ => .ok false) (fun _ _ => .ok "SM1") "+10000000000".data
        ["+1234567890".data] (some (String.mk (List.replicate 1601 'a'))) none).stored
      = (NumberValidation.validatePhoneNumbers (fun _ => .ok false)
          ["+1234567890".data]).newNumbers ∧
    (POST (fun _ => .ok false) (fun _ _ => .ok "SM1") "+10000000000".data
        ["+1234567890".data] (some (String.mk (List.replicate 1601 'a'))) none).sent
      = none ∧
    (POST (fun _ => .ok false) (fun _ _ => .ok "SM1") "+10000000000".data
        ["+1234567890".data] (some (String.mk (List.replicate 1601 'a'))) none).response
      = .badRequest "Message is too long. Maximum length is 1600 characters." ∧
    (NumberValidation.validatePhoneNumber (fun _ => .ok true)
        "+1234567890".data).isDuplicate = true := by
  obtain ⟨h1, h2, h3, h4⟩ := store_before_length_check
    (fun _ => .ok false) (fun _ _ => .ok "SM1") "+10000000000".data
    ["+1234567890".data] (String.mk (List.replicate 1601 'a'))
    (by decide) (by decide) (by simp [String.length]) (by decide)
  refine ⟨h1, h2, h3, h4 (fun _ => .ok true) "+1234567890".data ?_ rfl⟩
  rw [h1]
  decide

end SendRoute
